import Mathlib

/-!
Shallow embedding of `application.py` from the `ece444_pra05_ml_app`
repository: a small Flask service that lazily loads a pickled text
classifier and vectorizer and serves predictions over HTTP.

The embedding models:
* Python values decoded from a JSON request body (`PyValue`), together
  with Python's `str()` coercion and `str.strip()`;
* Python exceptions relevant to the service (`PyExn`): `FileNotFoundError`
  raised by `open`, deserialization failures raised by `pickle.load`, and
  arbitrary other exceptions carrying a detail message;
* the two module-level artifact slots `_loaded_model` / `_vectorizer`
  (`AppState`) and the double-checked lazy loader `_load_artifacts_once`;
* the inference wrapper `_predict_text` and the HTTP handlers `health`
  (`GET /`), `demo` (`GET /demo`), `predict_form` (`POST /predict-form`)
  and `predict_json` (`POST /predict`);
* the module-level path resolution `MODEL_PATH` / `VECTORIZER_PATH` from
  environment overrides with non-empty-wins semantics.

The model and vectorizer objects are opaque: they are parametrised by an
arbitrary feature type `Feat` and are records of the one method the code
calls on each (`transform`, `predict`), either of which may raise.  File
reads are modelled by an `ArtifactFS` record giving, for each of the two
resolved paths, what `open` + `pickle.load` would currently produce; the
loader additionally returns the list of physical read events it performed
so that "loaded at most once" claims are expressible.
-/

namespace FakeNewsApp

/-- Python values decoded from JSON, as far as this service can observe
them.  Nested JSON objects are not modelled (no claim needs them); a JSON
`null` decodes to Python `None`. -/
inductive PyValue where
  | null : PyValue
  | bool (b : Bool) : PyValue
  | int (i : Int) : PyValue
  | str (s : String) : PyValue
  | list (xs : List PyValue) : PyValue

mutual

/-- Python `repr` on the modelled fragment of values.  String escaping
inside `repr` of a `str` is not modelled (no claim depends on it); the
other cases match CPython output. -/
def pyRepr : PyValue → String
  | .null => "None"
  | .bool true => "True"
  | .bool false => "False"
  | .int i => toString i
  | .str s => "\x27" ++ s ++ "\x27"
  | .list xs => "[" ++ pyReprSeq xs ++ "]"

/-- `repr` of a list of values, comma-separated, as CPython prints it. -/
def pyReprSeq : List PyValue → String
  | [] => ""
  | [v] => pyRepr v
  | v :: vs => pyRepr v ++ ", " ++ pyReprSeq vs

end

/-- Python `str()` coercion: the string itself for a `str`, `repr`
otherwise (this is exactly CPython behaviour on the modelled fragment:
`str(None) = "None"`, `str(True) = "True"`, `str(3) = "3"`, and `str` of
a list is its `repr`). -/
def pyStr : PyValue → String
  | .str s => s
  | v => pyRepr v

/-- The ASCII whitespace characters stripped by Python `str.strip()`. -/
def isPySpace (c : Char) : Bool :=
  c = ' ' || c = '\t' || c = '\n' || c = '\r' || c = '\x0b' || c = '\x0c'

/-- Python `str.strip()` on the character list. -/
def pyStripList (l : List Char) : List Char :=
  ((l.dropWhile isPySpace).reverse.dropWhile isPySpace).reverse

/-- Python `str.strip()`: remove leading and trailing whitespace. -/
def pyStrip (s : String) : String :=
  ⟨pyStripList s.data⟩

/-- Python `dict.get(k, default)` on a JSON object modelled as an
association list (keys unique, as in a decoded JSON object). -/
def pyDictGet (d : List (String × PyValue)) (k : String) (dflt : PyValue) :
    PyValue :=
  match d.lookup k with
  | some v => v
  | Option.none => dflt

/-- Python exceptions as far as the handlers distinguish them:
`fileNotFound` is `FileNotFoundError` (raised by `open` on a missing
path); `unpickling detail` is a deserialization failure raised by
`pickle.load` on a readable but corrupt file (never a
`FileNotFoundError`); `exn detail` is any other exception, carrying its
message. -/
inductive PyExn where
  | fileNotFound : PyExn
  | unpickling (detail : String) : PyExn
  | exn (detail : String) : PyExn
deriving DecidableEq

/-- An opaque deserialized vectorizer: the one capability the code uses,
`transform(list of raw strings)`, which may raise. -/
structure Vectorizer (Feat : Type) where
  transform : List String → Except PyExn Feat

/-- A value appearing in the classifier output sequence `pred`:
`npScalar v` models a numpy scalar whose `.item()` returns the Python
value `v`; `pyVal v` models a plain Python value with no `item`
attribute. -/
inductive PredVal where
  | npScalar (itemVal : PyValue) : PredVal
  | pyVal (v : PyValue) : PredVal

/-- `val.item() if hasattr(val, "item") else val`, followed by `str(...)`:
the label normalization at the end of `_predict_text`. -/
def predToStr : PredVal → String
  | .npScalar v => pyStr v
  | .pyVal v => pyStr v

/-- An opaque deserialized classifier: the one capability the code uses,
`predict(features)`, returning a sequence of predicted values; it may
raise. -/
structure Classifier (Feat : Type) where
  predict : Feat → Except PyExn (List PredVal)

/-- What `open(path, "rb")` + `pickle.load` would currently produce at
each of the two resolved artifact paths.  `.error .fileNotFound` models a
missing file, `.error (.unpickling d)` a corrupt one.  A separate value
is supplied per call, since the file system may change between calls. -/
structure ArtifactFS (Feat : Type) where
  modelFile : Except PyExn (Classifier Feat)
  vecFile : Except PyExn (Vectorizer Feat)

/-- The two module-level artifact slots `_loaded_model` and
`_vectorizer`, both `None` at process start. -/
structure AppState (Feat : Type) where
  loaded_model : Option (Classifier Feat)
  vectorizer : Option (Vectorizer Feat)

/-- The state at process start: no artifact loaded. -/
def startState (Feat : Type) : AppState Feat :=
  ⟨Option.none, Option.none⟩

/-- `bool(_loaded_model is not None and _vectorizer is not None)`, the
presence test the code repeats in several handlers. -/
def bothSome {Feat : Type} (s : AppState Feat) : Bool :=
  s.loaded_model.isSome && s.vectorizer.isSome

/-- A physical artifact-file access performed by one call to the loader.
`modelRead` / `vecRead` record a completed read-and-deserialize of the
model / vectorizer file; `modelFail` / `vecFail` record an access that
raised (missing or corrupt file). -/
inductive LoadEvent where
  | modelRead : LoadEvent
  | modelFail : LoadEvent
  | vecRead : LoadEvent
  | vecFail : LoadEvent
deriving DecidableEq

/-- Result of one call to `_load_artifacts_once`: the state of the two
slots afterwards, the physical file accesses performed, and the exception
propagated to the caller, if any. -/
structure LoadResult (Feat : Type) where
  state : AppState Feat
  events : List LoadEvent
  err : Option PyExn

/-- The body of the `with _artifact_lock:` block after the re-check has
passed: load the model file into `_loaded_model`, then the vectorizer
file into `_vectorizer`.  Each assignment happens as soon as its
`pickle.load` returns, so a failure on the vectorizer file leaves
`_loaded_model` already populated. -/
def loadCritical {Feat : Type} (fs : ArtifactFS Feat) (s : AppState Feat) :
    LoadResult Feat :=
  match fs.modelFile with
  | .error e => ⟨s, [.modelFail], some e⟩
  | .ok m =>
    let s1 : AppState Feat := { s with loaded_model := some m }
    match fs.vecFile with
    | .error e => ⟨s1, [.modelRead, .vecFail], some e⟩
    | .ok v => ⟨{ s1 with vectorizer := some v }, [.modelRead, .vecRead], Option.none⟩

/-- One call to `_load_artifacts_once` as seen by a caller whose
lock-free fast-path presence test observed the slots in state `observed`,
while `current` is the state of the slots once the lock is available to
this caller (lock acquisition serializes the critical sections, so
`current` reflects all loads completed by earlier lock holders).  The
fast path returns without acquiring the lock; the slow path re-checks
presence under the lock.  Sequential calls are the special case
`observed = current` (`load_artifacts_once` below). -/
def loadCallWithObservation {Feat : Type} (fs : ArtifactFS Feat)
    (observed current : AppState Feat) : LoadResult Feat :=
  if bothSome observed then
    ⟨current, [], Option.none⟩
  else
    if current.loaded_model.isNone || current.vectorizer.isNone then
      loadCritical fs current
    else
      ⟨current, [], Option.none⟩

/-- `_load_artifacts_once()` called with no interleaved concurrent
caller: the fast-path check and the locked re-check see the same
state. -/
def load_artifacts_once {Feat : Type} (fs : ArtifactFS Feat)
    (s : AppState Feat) : LoadResult Feat :=
  loadCallWithObservation fs s s

/-- Result of one call to `_predict_text`: slot state afterwards, the
physical file accesses performed, and either the label string or the
exception propagated to the caller. -/
structure InferResult (Feat : Type) where
  state : AppState Feat
  events : List LoadEvent
  result : Except PyExn String

/-- The value or exception `_predict_text` produces after its
`_load_artifacts_once()` call finished with result `r`: a propagated
loader exception, or `str(pred[0])` computed from the slots via
`transform` and `predict`.  An empty prediction sequence makes `pred[0]`
raise `IndexError`; reading a still-`None` slot would raise
`AttributeError` (both are ordinary exceptions to the callers). -/
def inferValue {Feat : Type} (r : LoadResult Feat) (message : String) :
    Except PyExn String :=
  match r.err with
  | some e => .error e
  | Option.none =>
    match r.state.vectorizer with
    | Option.none => .error (.exn "AttributeError")
    | some v =>
      match v.transform [message] with
      | .error e => .error e
      | .ok x =>
        match r.state.loaded_model with
        | Option.none => .error (.exn "AttributeError")
        | some c =>
          match c.predict x with
          | .error e => .error e
          | .ok [] => .error (.exn "IndexError")
          | .ok (p :: _) => .ok (predToStr p)

/-- `_predict_text(message)`: call `_load_artifacts_once()` (which may
touch the files and update the slots), then either propagate its
exception or transform `[message]` through the vectorizer, call the
classifier, take `pred[0]`, and normalize it to a plain string. -/
def predict_text {Feat : Type} (fs : ArtifactFS Feat) (s : AppState Feat)
    (message : String) : InferResult Feat :=
  let r := load_artifacts_once fs s
  ⟨r.state, r.events, inferValue r message⟩

/-- Result of resolving one artifact path at import time:
`os.getenv(var) or default` — the environment value wins only when the
variable is set to a non-empty string. -/
def resolvePath (envVal : Option String) (dflt : String) : String :=
  match envVal with
  | some s => if s = "" then dflt else s
  | Option.none => dflt

/-- `os.path.join(base, name)` for a relative `name` on POSIX, as used
with the two literal artifact file names. -/
def osPathJoin (base name : String) : String :=
  base ++ "/" ++ name

/-- The process environment as far as path resolution reads it:
`MODEL_PATH` and `VECTORIZER_PATH` (each `Option.none` when unset). -/
structure Env where
  model_path_var : Option String
  vectorizer_path_var : Option String

/-- The resolved module-level constants `MODEL_PATH` and
`VECTORIZER_PATH`. -/
structure Config where
  model_path : String
  vectorizer_path : String
deriving DecidableEq

/-- Module import: resolve both artifact paths from the environment,
falling back to the two pickle files next to `application.py`
(`BASE_DIR`). -/
def initConfig (baseDir : String) (env : Env) : Config :=
  ⟨resolvePath env.model_path_var (osPathJoin baseDir "basic_classifier.pkl"),
   resolvePath env.vectorizer_path_var (osPathJoin baseDir "count_vectorizer.pkl")⟩

/-- An HTTP response produced with `jsonify`: status code and the JSON
object body. -/
structure JsonResponse where
  status : Nat
  body : List (String × PyValue)

/-- `GET /` (the `health` route): always 200 with status `"ok"`, the
presence flag, and the two resolved paths. -/
def health {Feat : Type} (cfg : Config) (s : AppState Feat) : JsonResponse :=
  ⟨200, [("status", .str "ok"),
         ("model_loaded", .bool (bothSome s)),
         ("model_path", .str cfg.model_path),
         ("vectorizer_path", .str cfg.vectorizer_path)]⟩

/-- An HTTP response produced by rendering `DEMO_HTML`: status code plus
the template parameters the handler passes to the renderer (the template
body itself is static markup). -/
structure HtmlResponse where
  status : Nat
  model_loaded : Bool
  prediction : Option String
  error : Option String

/-- `GET /demo`: renders the demo page with the current presence flag and
no prediction or error. -/
def demo {Feat : Type} (s : AppState Feat) : HtmlResponse :=
  ⟨200, bothSome s, Option.none, Option.none⟩

/-- Result of one call to a predicting handler: slot state afterwards,
physical file accesses performed, and the response. -/
structure FormOut (Feat : Type) where
  state : AppState Feat
  events : List LoadEvent
  resp : HtmlResponse

/-- The error message rendered or returned for an empty `message`. -/
def missingFieldMsg : String :=
  "Field \x27message\x27 is required and must be non-empty."

/-- The error message for a `FileNotFoundError` during inference. -/
def artifactsMissingMsg : String :=
  "Model artifacts not found on server."

/-- The generic error message for any other inference failure. -/
def inferenceFailedMsg : String :=
  "Inference failed."

/-- The `try`/`except` mapping of `predict_form`: 200 rendered with
`model_loaded=True` on success, 503 rendered with `model_loaded=False`
on `FileNotFoundError`, and a generic 500 on any other exception,
rendered with the presence flag re-evaluated on the slot state after the
attempt (`sAfter`). -/
def formRespOf {Feat : Type} (sAfter : AppState Feat) :
    Except PyExn String → HtmlResponse
  | .ok label => ⟨200, true, some label, Option.none⟩
  | .error .fileNotFound => ⟨503, false, Option.none, some artifactsMissingMsg⟩
  | .error _ => ⟨500, bothSome sAfter, Option.none, some inferenceFailedMsg⟩

/-- `POST /predict-form`: `(request.form.get("message") or "").strip()`
(`formMessage` is `Option.none` when the form field is absent), reject
empty input with 400 (rendered with the current presence flag), otherwise
run `_predict_text` and map its outcome through `formRespOf`. -/
def predict_form {Feat : Type} (fs : ArtifactFS Feat) (s : AppState Feat)
    (formMessage : Option String) : FormOut Feat :=
  let message := pyStrip (formMessage.getD "")
  if message = "" then
    ⟨s, [], ⟨400, bothSome s, Option.none, some missingFieldMsg⟩⟩
  else
    let r := predict_text fs s message
    ⟨r.state, r.events, formRespOf r.state r.result⟩

/-- Result of one call to `predict_json`: slot state afterwards, physical
file accesses performed, and the JSON response. -/
structure JsonOut (Feat : Type) where
  state : AppState Feat
  events : List LoadEvent
  resp : JsonResponse

/-- The `try`/`except` mapping of `predict_json`: 200 with the label on
success, 503 with an error key on `FileNotFoundError`, and a generic 500
with an error key on any other exception. -/
def jsonRespOf : Except PyExn String → JsonResponse
  | .ok label => ⟨200, [("label", .str label)]⟩
  | .error .fileNotFound => ⟨503, [("error", .str artifactsMissingMsg)]⟩
  | .error _ => ⟨500, [("error", .str inferenceFailedMsg)]⟩

/-- `POST /predict`: `request.get_json(silent=True) or {}` (`body` is
`Option.none` when the body is not a valid JSON object, which
`get_json(silent=True)` turns into `None`), then
`str(data.get("message", "")).strip()`; empty input is rejected with 400,
otherwise `_predict_text` runs and `FileNotFoundError` maps to 503 and
any other exception to a generic 500. -/
def predict_json {Feat : Type} (fs : ArtifactFS Feat) (s : AppState Feat)
    (body : Option (List (String × PyValue))) : JsonOut Feat :=
  let data := body.getD []
  let message := pyStrip (pyStr (pyDictGet data "message" (.str "")))
  if message = "" then
    ⟨s, [], ⟨400, [("error", .str missingFieldMsg)]⟩⟩
  else
    let r := predict_text fs s message
    ⟨r.state, r.events, jsonRespOf r.result⟩

/-- An event the process can serve after start: one of the four HTTP
routes, or the background eager-load task body
(`_eager_load_background`, which calls the loader and swallows any
exception). -/
inductive Request where
  | getHealth : Request
  | getDemo : Request
  | postPredictForm (message : Option String) : Request
  | postPredict (body : Option (List (String × PyValue))) : Request
  | eagerLoad : Request

/-- The full process state: the immutable resolved configuration and the
two artifact slots. -/
structure ProcState (Feat : Type) where
  cfg : Config
  app : AppState Feat

/-- Serve one event against the current process state, under the
file-system contents `fs` at that moment.  Only the artifact slots can
change; module-level constants are never reassigned. -/
def serverStep {Feat : Type} (fs : ArtifactFS Feat) (p : ProcState Feat) :
    Request → ProcState Feat × List LoadEvent
  | .getHealth => (p, [])
  | .getDemo => (p, [])
  | .postPredictForm m =>
    let o := predict_form fs p.app m
    (⟨p.cfg, o.state⟩, o.events)
  | .postPredict b =>
    let o := predict_json fs p.app b
    (⟨p.cfg, o.state⟩, o.events)
  | .eagerLoad =>
    let r := load_artifacts_once fs p.app
    (⟨p.cfg, r.state⟩, r.events)

/-- Serve a sequence of events, each under the file-system contents in
force at its moment, accumulating all physical file accesses. -/
def runServer {Feat : Type} (p : ProcState Feat) :
    List (ArtifactFS Feat × Request) → ProcState Feat × List LoadEvent
  | [] => (p, [])
  | (fs, r) :: rest =>
    let (p1, evs) := serverStep fs p r
    let (p2, evs2) := runServer p1 rest
    (p2, evs ++ evs2)

/-! ### Concrete instances used to evaluate the model on specific inputs

`Feat` is instantiated with `Nat`; the opaque artifacts become small
executable stand-ins satisfying the same interfaces. -/

/-- A vectorizer stand-in: the feature is the number of input strings
plus the length of the first one. -/
def lenVectorizer : Vectorizer Nat :=
  ⟨fun msgs => .ok (msgs.length + (msgs.headD "").length)⟩

/-- A classifier stand-in that always predicts the numpy-scalar label
`"FAKE"`. -/
def fakeClassifier : Classifier Nat :=
  ⟨fun _ => .ok [.npScalar (.str "FAKE")]⟩

/-- File system with both artifact files present and well-formed. -/
def goodFS : ArtifactFS Nat :=
  ⟨.ok fakeClassifier, .ok lenVectorizer⟩

/-- File system where the model file exists but is corrupt (its
`pickle.load` raises a deserialization error, not `FileNotFoundError`). -/
def corruptModelFS : ArtifactFS Nat :=
  ⟨.error (.unpickling "invalid load key"), .ok lenVectorizer⟩

/-- File system where the model file is missing. -/
def missingModelFS : ArtifactFS Nat :=
  ⟨.error .fileNotFound, .ok lenVectorizer⟩

/-- File system where the model file is fine but the vectorizer file is
missing. -/
def missingVecFS : ArtifactFS Nat :=
  ⟨.ok fakeClassifier, .error .fileNotFound⟩

/-- File system where the model file is fine but the vectorizer file is
corrupt. -/
def corruptVecFS : ArtifactFS Nat :=
  ⟨.ok fakeClassifier, .error (.unpickling "bad vectorizer pickle")⟩

/-- The slot state after a successful load from `goodFS`. -/
def loadedState : AppState Nat :=
  ⟨some fakeClassifier, some lenVectorizer⟩

/-! ### Helper lemmas -/

/-- Fast path: when both slots are present, a sequential call to the
loader returns at once, with no file access and no error. -/
theorem load_fast {Feat : Type} (fs : ArtifactFS Feat) (s : AppState Feat)
    (h : bothSome s = true) :
    load_artifacts_once fs s = ⟨s, [], Option.none⟩ := by
  unfold load_artifacts_once loadCallWithObservation
  simp [h]

/-- Double-check: whatever stale state a caller's lock-free presence test
observed, once the serialized state has both slots present the call
performs no file access. -/
theorem loadObs_loaded {Feat : Type} (fs : ArtifactFS Feat)
    (observed current : AppState Feat) (h : bothSome current = true) :
    loadCallWithObservation fs observed current = ⟨current, [], Option.none⟩ := by
  unfold loadCallWithObservation
  rcases hm : current.loaded_model with _ | m
  · simp [bothSome, hm] at h
  rcases hv : current.vectorizer with _ | v
  · simp [bothSome, hv] at h
  by_cases ho : bothSome observed = true <;> simp [ho, hm, hv]

/-- A sequential loader call that does not raise leaves both slots
present. -/
theorem load_success_bothSome {Feat : Type} {fs : ArtifactFS Feat}
    {s s1 : AppState Feat} {evs : List LoadEvent}
    (h : load_artifacts_once fs s = ⟨s1, evs, Option.none⟩) :
    bothSome s1 = true := by
  unfold load_artifacts_once loadCallWithObservation loadCritical at h
  by_cases hb : bothSome s = true
  · simp [hb] at h
    rw [← h.1]
    exact hb
  · simp [hb] at h
    rcases hrc : (s.loaded_model.isNone || s.vectorizer.isNone) with _ | _
    · simp [hrc] at h
      rw [← h.1]
      simp [bothSome] at hb ⊢
      simp [Option.isNone_iff_eq_none] at hrc
      simp [Option.isSome_iff_ne_none, hrc.1, hrc.2]
    · simp [hrc] at h
      rcases hmf : fs.modelFile with e | m
      · simp [hmf] at h
      · rcases hvf : fs.vecFile with e | v
        · simp [hmf, hvf] at h
        · simp [hmf, hvf] at h
          rw [← h.1]
          simp [bothSome]

/-- The state returned by `_predict_text` is exactly the state returned
by its initial `_load_artifacts_once()` call; the later steps only read
the slots. -/
theorem predict_text_state {Feat : Type} (fs : ArtifactFS Feat)
    (s : AppState Feat) (m : String) :
    (predict_text fs s m).state = (load_artifacts_once fs s).state ∧
    (predict_text fs s m).events = (load_artifacts_once fs s).events :=
  ⟨rfl, rfl⟩

/-- Inversion of a successful `_predict_text` call: the loader succeeded
and the label was produced from the loaded artifacts by `transform`,
`predict`, indexing and normalization. -/
theorem predict_text_ok_inv {Feat : Type} {fs : ArtifactFS Feat}
    {s s1 : AppState Feat} {evs : List LoadEvent} {m l : String}
    (h : predict_text fs s m = ⟨s1, evs, .ok l⟩) :
    load_artifacts_once fs s = ⟨s1, evs, Option.none⟩ ∧
    ∃ v c x p rest, s1.vectorizer = some v ∧ s1.loaded_model = some c ∧
      v.transform [m] = .ok x ∧ c.predict x = .ok (p :: rest) ∧
      l = predToStr p := by
  unfold predict_text at h
  simp only [InferResult.mk.injEq] at h
  obtain ⟨hs, hevs, hval⟩ := h
  unfold inferValue at hval
  rcases her : (load_artifacts_once fs s).err with _ | e
  · rw [her] at hval
    simp only at hval
    rcases hv : (load_artifacts_once fs s).state.vectorizer with _ | v
    · rw [hv] at hval
      simp at hval
    · rw [hv] at hval
      simp only at hval
      rcases hx : v.transform [m] with e | x
      · rw [hx] at hval
        simp at hval
      · rw [hx] at hval
        simp only at hval
        rcases hc : (load_artifacts_once fs s).state.loaded_model with _ | c
        · rw [hc] at hval
          simp at hval
        · rw [hc] at hval
          simp only at hval
          rcases hp : c.predict x with e | preds
          · rw [hp] at hval
            simp at hval
          · rcases preds with _ | ⟨p, rest⟩
            · rw [hp] at hval
              simp at hval
            · rw [hp] at hval
              simp only [Except.ok.injEq] at hval
              rw [hs] at hv hc
              refine ⟨?_, v, c, x, p, rest, hv, hc, hx, hp, hval.symm⟩
              rw [← hs, ← hevs, ← her]
  · rw [her] at hval
    simp at hval

/-- A string consisting only of Python whitespace strips to the empty
string. -/
theorem pyStrip_all_space (w : String)
    (hw : w.data.all isPySpace = true) : pyStrip w = "" := by
  have h1 : w.data.dropWhile isPySpace = [] := by
    rw [List.dropWhile_eq_nil_iff]
    intro x hx
    exact List.all_eq_true.mp hw x hx
  unfold pyStrip pyStripList
  rw [h1]
  rfl

/-- The handlers never reassign the module-level configuration. -/
theorem runServer_cfg {Feat : Type} (p : ProcState Feat)
    (steps : List (ArtifactFS Feat × Request)) :
    (runServer p steps).1.cfg = p.cfg := by
  induction steps generalizing p with
  | nil => rfl
  | cons hd tl ih =>
    rcases hd with ⟨fs, r⟩
    show (runServer p ((fs, r) :: tl)).1.cfg = p.cfg
    unfold runServer
    rcases r with _ | _ | m | b | _ <;> simp [serverStep] <;> exact ih _

/-- Once both slots are present they stay present across any handler
call. -/
theorem serverStep_bothSome {Feat : Type} (fs : ArtifactFS Feat)
    (p : ProcState Feat) (r : Request) (h : bothSome p.app = true) :
    bothSome ((serverStep fs p r).1).app = true := by
  have hload : load_artifacts_once fs p.app = ⟨p.app, [], Option.none⟩ :=
    load_fast fs p.app h
  have hpt : ∀ m, (predict_text fs p.app m).state = p.app := by
    intro m
    unfold predict_text
    rw [hload]
  rcases r with _ | _ | m | b | _
  · exact h
  · exact h
  · show bothSome (predict_form fs p.app m).state = true
    unfold predict_form
    by_cases he : pyStrip (m.getD "") = ""
    · rw [if_pos he]
      exact h
    · rw [if_neg he]
      simp only [hpt]
      exact h
  · show bothSome (predict_json fs p.app b).state = true
    unfold predict_json
    by_cases he :
        pyStrip (pyStr (pyDictGet (b.getD []) "message" (.str ""))) = ""
    · rw [if_pos he]
      exact h
    · rw [if_neg he]
      simp only [hpt]
      exact h
  · show bothSome (load_artifacts_once fs p.app).state = true
    rw [hload]
    exact h

/-- Once both slots are present they stay present for the rest of the
process. -/
theorem runServer_bothSome {Feat : Type} (p : ProcState Feat)
    (steps : List (ArtifactFS Feat × Request)) (h : bothSome p.app = true) :
    bothSome ((runServer p steps).1).app = true := by
  induction steps generalizing p with
  | nil => exact h
  | cons hd tl ih =>
    rcases hd with ⟨fs, r⟩
    show bothSome ((runServer p ((fs, r) :: tl)).1).app = true
    unfold runServer
    have hstep := serverStep_bothSome fs p r h
    rcases hs : serverStep fs p r with ⟨p1, evs⟩
    rw [hs] at hstep
    simpa using ih p1 hstep

/-! ### Claims -/

/-- C1 counterexample: with the model file present but corrupt — its
deserialization raises an `UnpicklingError`, not a `FileNotFoundError` —
`POST /predict` with a non-empty message returns HTTP 500, not the 503
the claim asserts for an `ArtifactCorrupt` failure (only
`FileNotFoundError` is mapped to 503). -/
theorem claim_C1_counterexample :
    (predict_json corruptModelFS (startState Nat)
        (some [("message", PyValue.str "hello")])).resp.status = 500 ∧
    (predict_json corruptModelFS (startState Nat)
        (some [("message", PyValue.str "hello")])).resp.status ≠ 503 := by
  exact ⟨rfl, by decide⟩

/-- C1 (amended): for `POST /predict`, an `ArtifactNotFound` failure
(`FileNotFoundError` from a missing artifact file) surfaces as HTTP 503
with an error key; an `ArtifactCorrupt` failure (deserialization error)
surfaces as HTTP 500 with the same generic body as any other inference
failure (not as 503); an `InvalidInput` (empty/missing message) surfaces
as HTTP 400; and any other exception raised during transform/predict
surfaces as HTTP 500 with a generic error message that never contains
the underlying exception detail (the body is a constant independent of
the detail string). -/
theorem claim_C1 {Feat : Type} (fs : ArtifactFS Feat) (s : AppState Feat)
    (body : Option (List (String × PyValue))) (msg : String)
    (hmsg : pyStrip (pyStr (pyDictGet (body.getD []) "message" (.str ""))) = msg) :
    (msg = "" →
      (predict_json fs s body).resp =
        ⟨400, [("error", .str missingFieldMsg)]⟩) ∧
    (∀ s1 evs, msg ≠ "" →
      predict_text fs s msg = ⟨s1, evs, .error .fileNotFound⟩ →
      (predict_json fs s body).resp =
        ⟨503, [("error", .str artifactsMissingMsg)]⟩) ∧
    (∀ s1 evs d, msg ≠ "" →
      predict_text fs s msg = ⟨s1, evs, .error (.unpickling d)⟩ →
      (predict_json fs s body).resp =
        ⟨500, [("error", .str inferenceFailedMsg)]⟩) ∧
    (∀ s1 evs d, msg ≠ "" →
      predict_text fs s msg = ⟨s1, evs, .error (.exn d)⟩ →
      (predict_json fs s body).resp =
        ⟨500, [("error", .str inferenceFailedMsg)]⟩) := by
  unfold predict_json
  simp only
  rw [hmsg]
  refine ⟨?_, ?_, ?_, ?_⟩
  · intro he
    rw [if_pos he]
  · intro s1 evs hne hpt
    rw [if_neg hne]
    simp only [hpt]
    rfl
  · intro s1 evs d hne hpt
    rw [if_neg hne]
    simp only [hpt]
    rfl
  · intro s1 evs d hne hpt
    rw [if_neg hne]
    simp only [hpt]
    rfl

/-- Witness for C1 (amended) at a concrete input: missing model file,
message `"hi"` — the response is 503 with the error body. -/
theorem claim_C1_witness :
    (predict_json missingModelFS (startState Nat)
        (some [("message", PyValue.str "hi")])).resp =
      ⟨503, [("error", PyValue.str artifactsMissingMsg)]⟩ :=
  (claim_C1 missingModelFS (startState Nat)
      (some [("message", PyValue.str "hi")]) "hi" rfl).2.1
    (startState Nat) [.modelFail] (by decide) rfl

/-- C2 counterexample: the claim's "at most one physical load of each
artifact occurs per process" fails.  First call: the model file loads
(one physical read) but the vectorizer file is corrupt, so the call
raises.  Second call: it re-runs the full load and succeeds.  After a
call has succeeded, the model artifact has been physically read and
deserialized twice in the process. -/
theorem claim_C2_counterexample :
    (load_artifacts_once goodFS
        (load_artifacts_once corruptVecFS (startState Nat)).state).err
      = Option.none ∧
    ((load_artifacts_once corruptVecFS (startState Nat)).events ++
        (load_artifacts_once goodFS
          (load_artifacts_once corruptVecFS (startState Nat)).state).events).count
      .modelRead = 2 :=
  ⟨rfl, rfl⟩

/-- C2 (amended): once a call to `_load_artifacts_once` has succeeded,
both artifact slots are non-null and every subsequent call — under any
later file-system contents, and whatever stale slot state its lock-free
fast-path presence check observed — returns without performing any file
read or deserialization, so no physical load of either artifact occurs
after the first success; this holds under concurrent callers because
presence is checked both before and after acquiring the coordination
lock.  (The original per-process "at most one physical load" bound does
not hold: an earlier failed attempt can itself have completed a physical
read of the model artifact.) -/
theorem claim_C2 {Feat : Type} (fs fs2 : ArtifactFS Feat)
    (s s1 : AppState Feat) (evs : List LoadEvent)
    (h : load_artifacts_once fs s = ⟨s1, evs, Option.none⟩) :
    bothSome s1 = true ∧
    load_artifacts_once fs2 s1 = ⟨s1, [], Option.none⟩ ∧
    (∀ observed, loadCallWithObservation fs2 observed s1 =
      ⟨s1, [], Option.none⟩) := by
  have hs1 : bothSome s1 = true := load_success_bothSome h
  exact ⟨hs1, load_fast fs2 s1 hs1,
    fun observed => loadObs_loaded fs2 observed s1 hs1⟩

/-- Witness for C2 (amended): a successful load from `goodFS`, then a
second sequential call and a concurrent call with a stale observation,
both returning with no file access. -/
theorem claim_C2_witness :
    bothSome loadedState = true ∧
    load_artifacts_once goodFS loadedState =
      ⟨loadedState, [], Option.none⟩ ∧
    loadCallWithObservation goodFS (startState Nat) loadedState =
      ⟨loadedState, [], Option.none⟩ :=
  ⟨(claim_C2 goodFS goodFS (startState Nat) loadedState
      [.modelRead, .vecRead] rfl).1,
   (claim_C2 goodFS goodFS (startState Nat) loadedState
      [.modelRead, .vecRead] rfl).2.1,
   (claim_C2 goodFS goodFS (startState Nat) loadedState
      [.modelRead, .vecRead] rfl).2.2 (startState Nat)⟩

/-- C3 counterexample: a failing call does not leave the state exactly
as before the attempt.  With the model file fine but the vectorizer file
missing, the call from the unloaded start state raises — yet the
`_loaded_model` slot is left populated. -/
theorem claim_C3_counterexample :
    ((load_artifacts_once missingVecFS (startState Nat)).err).isSome
      = true ∧
    ((load_artifacts_once missingVecFS
        (startState Nat)).state).loaded_model.isSome = true :=
  ⟨rfl, rfl⟩

/-- C3 (amended): if a call to `_load_artifacts_once` fails (from any
pre-state whose vectorizer slot is empty, which is every reachable
pre-load state), the coordinator does not reach `Loaded`: the vectorizer
slot stays empty and the presence test stays false, the failure is not
cached, and the next call re-runs the full physical load of both files
and succeeds once both are readable.  However, the attempt is not rolled
back atomically: the model slot may be left populated when the model
file loaded and the vectorizer file failed. -/
theorem claim_C3 {Feat : Type} (fs fs2 : ArtifactFS Feat)
    (s s1 : AppState Feat) (evs : List LoadEvent) (e : PyExn)
    (hpre : s.vectorizer = Option.none)
    (h : load_artifacts_once fs s = ⟨s1, evs, some e⟩) :
    s1.vectorizer = Option.none ∧
    bothSome s1 = false ∧
    (∀ m v, fs2.modelFile = .ok m → fs2.vecFile = .ok v →
      load_artifacts_once fs2 s1 =
        ⟨⟨some m, some v⟩, [.modelRead, .vecRead], Option.none⟩) := by
  have hb : bothSome s = false := by
    simp [bothSome, hpre]
  have hvec : s1.vectorizer = Option.none := by
    unfold load_artifacts_once loadCallWithObservation at h
    rw [hb] at h
    simp only [Bool.false_eq_true, if_false, hpre, Option.isNone_none,
      Bool.or_true, if_true] at h
    unfold loadCritical at h
    rcases hmf : fs.modelFile with e1 | mm
    · rw [hmf] at h
      simp only [LoadResult.mk.injEq] at h
      rw [← h.1]
      exact hpre
    · rw [hmf] at h
      simp only at h
      rcases hvf : fs.vecFile with e2 | vv
      · rw [hvf] at h
        simp only [LoadResult.mk.injEq] at h
        rw [← h.1]
        exact hpre
      · rw [hvf] at h
        simp only [LoadResult.mk.injEq] at h
        exact absurd h.2.2 (by simp)
  refine ⟨hvec, ?_, ?_⟩
  · simp [bothSome, hvec]
  · intro m v hm hv
    have hb1 : bothSome s1 = false := by
      simp [bothSome, hvec]
    unfold load_artifacts_once loadCallWithObservation
    rw [hb1]
    simp only [Bool.false_eq_true, if_false, hvec, Option.isNone_none,
      Bool.or_true, if_true]
    unfold loadCritical
    rw [hm]
    simp only
    rw [hv]

/-- Witness for C3 (amended): the failing call with the vectorizer file
missing leaves the presence test false, and a retry against a repaired
file system performs the full load and succeeds. -/
theorem claim_C3_witness :
    ((load_artifacts_once missingVecFS
        (startState Nat)).state).vectorizer = Option.none ∧
    load_artifacts_once goodFS
        (load_artifacts_once missingVecFS (startState Nat)).state =
      ⟨⟨some fakeClassifier, some lenVectorizer⟩,
        [.modelRead, .vecRead], Option.none⟩ :=
  ⟨(claim_C3 missingVecFS goodFS (startState Nat)
      (load_artifacts_once missingVecFS (startState Nat)).state
      [.modelRead, .vecFail] .fileNotFound rfl rfl).1,
   (claim_C3 missingVecFS goodFS (startState Nat)
      (load_artifacts_once missingVecFS (startState Nat)).state
      [.modelRead, .vecFail] .fileNotFound rfl rfl).2.2
     fakeClassifier lenVectorizer rfl rfl⟩

/-- C4: for every message, `_predict_text` first ensures artifacts are
loaded, then transforms the one-element list `[message]` through the
vectorizer, calls the classifier's `predict` on the result, extracts the
first predicted value, and returns it normalized to a plain string — a
numeric/scalar label (a numpy scalar, via `.item()`) is converted to its
textual form. -/
theorem claim_C4 {Feat : Type} (fs : ArtifactFS Feat) (s s1 : AppState Feat)
    (evs : List LoadEvent) (m : String) (v : Vectorizer Feat)
    (c : Classifier Feat) (x : Feat) (p : PredVal) (rest : List PredVal)
    (hload : load_artifacts_once fs s = ⟨s1, evs, Option.none⟩)
    (hv : s1.vectorizer = some v) (hc : s1.loaded_model = some c)
    (hx : v.transform [m] = .ok x) (hp : c.predict x = .ok (p :: rest)) :
    predict_text fs s m = ⟨s1, evs, .ok (predToStr p)⟩ ∧
    (∀ val, predToStr (.npScalar val) = pyStr val) := by
  constructor
  · unfold predict_text inferValue
    rw [hload]
    simp only [hv, hx, hc, hp]
  · intro val
    rfl

/-- Witness for C4 at a concrete input: loading from `goodFS`, the label
is the stringified first prediction, `"FAKE"`. -/
theorem claim_C4_witness :
    predict_text goodFS (startState Nat) "news" =
      ⟨loadedState, [.modelRead, .vecRead], .ok "FAKE"⟩ :=
  (claim_C4 goodFS (startState Nat) loadedState [.modelRead, .vecRead]
      "news" lenVectorizer fakeClassifier 5 (.npScalar (.str "FAKE")) []
      rfl rfl rfl rfl rfl).1

/-- C5: every `POST /predict` request whose decoded message is empty or
missing gives HTTP 400 with an `error` key in the JSON body and touches
neither the slots nor the files; in particular the body `\x7b\x7d` (an
empty JSON object) yields 400 with an `error` key. -/
theorem claim_C5 {Feat : Type} (fs : ArtifactFS Feat) (s : AppState Feat)
    (body : Option (List (String × PyValue)))
    (hempty :
      pyStrip (pyStr (pyDictGet (body.getD []) "message" (.str ""))) = "") :
    (predict_json fs s body).resp.status = 400 ∧
    ((predict_json fs s body).resp.body.lookup "error").isSome = true ∧
    (predict_json fs s body).state = s ∧
    (predict_json fs s body).events = [] ∧
    (predict_json fs s (some [])).resp.status = 400 ∧
    ((predict_json fs s (some [])).resp.body.lookup "error").isSome = true := by
  have h400 : predict_json fs s body =
      ⟨s, [], ⟨400, [("error", .str missingFieldMsg)]⟩⟩ := by
    unfold predict_json
    simp only
    rw [hempty]
    simp
  rw [h400]
  exact ⟨rfl, rfl, rfl, rfl, rfl, rfl⟩

/-- Witness for C5 at the concrete body `\x7b\x7d`. -/
theorem claim_C5_witness :
    (predict_json goodFS (startState Nat) (some [])).resp.status = 400 ∧
    ((predict_json goodFS (startState Nat)
        (some [])).resp.body.lookup "error").isSome = true :=
  ⟨(claim_C5 goodFS (startState Nat) (some []) rfl).1,
   (claim_C5 goodFS (startState Nat) (some []) rfl).2.1⟩

/-- C6: determinism of predict given fixed artifacts, as a two-run
property: if one call of `_predict_text` on `m` returns label `l`
leaving slot state `s1`, a second call on the same `m` against those
loaded artifacts returns the same `l` (and, the slots being populated,
performs no file access whatever the file system then contains). -/
theorem claim_C6 {Feat : Type} (fs fs2 : ArtifactFS Feat)
    (s s1 : AppState Feat) (evs : List LoadEvent) (m l : String)
    (h : predict_text fs s m = ⟨s1, evs, .ok l⟩) :
    predict_text fs2 s1 m = ⟨s1, [], .ok l⟩ := by
  obtain ⟨hl, v, c, x, p, rest, hv, hc, hx, hp, hll⟩ := predict_text_ok_inv h
  have hb : bothSome s1 = true := load_success_bothSome hl
  have hfast := load_fast fs2 s1 hb
  unfold predict_text inferValue
  rw [hfast]
  simp only [hv, hx, hc, hp, hll]

/-- Witness for C6: the second run of `"news"` against the loaded
state returns the same label with no file access. -/
theorem claim_C6_witness :
    predict_text goodFS loadedState "news" =
      ⟨loadedState, [], .ok "FAKE"⟩ :=
  claim_C6 goodFS goodFS (startState Nat) loadedState
    [.modelRead, .vecRead] "news" "FAKE" rfl

/-- C7: `GET /` always returns HTTP 200 with status `"ok"`, the resolved
`model_path` and `vectorizer_path`, and a boolean `model_loaded` equal to
"both artifact slots are non-null" — hence `false` at process start
(before any load attempt) and `true` on the state left by any successful
load (eager or lazy). -/
theorem claim_C7 {Feat : Type} (cfg : Config) (s s1 : AppState Feat)
    (fs : ArtifactFS Feat) (evs : List LoadEvent) :
    (health cfg s).status = 200 ∧
    (health cfg s).body.lookup "status" = some (.str "ok") ∧
    (health cfg s).body.lookup "model_path" = some (.str cfg.model_path) ∧
    (health cfg s).body.lookup "vectorizer_path" =
      some (.str cfg.vectorizer_path) ∧
    (health cfg s).body.lookup "model_loaded" = some (.bool (bothSome s)) ∧
    (health cfg (startState Feat)).body.lookup "model_loaded" =
      some (.bool false) ∧
    (load_artifacts_once fs s = ⟨s1, evs, Option.none⟩ →
      (health cfg s1).body.lookup "model_loaded" = some (.bool true)) := by
  refine ⟨rfl, rfl, rfl, rfl, rfl, rfl, ?_⟩
  intro h
  have hb := load_success_bothSome h
  have hlook : (health cfg s1).body.lookup "model_loaded" =
      some (.bool (bothSome s1)) := rfl
  rw [hlook, hb]

/-- Witness for C7: after the successful load from `goodFS`, `GET /`
reports `model_loaded: true`. -/
theorem claim_C7_witness :
    (health ⟨"/m.pkl", "/v.pkl"⟩ loadedState).body.lookup "model_loaded" =
      some (.bool true) :=
  (claim_C7 ⟨"/m.pkl", "/v.pkl"⟩ (startState Nat) loadedState goodFS
      [.modelRead, .vecRead]).2.2.2.2.2.2 rfl

/-- C8: each artifact path is resolved at process start as the
environment variable's value if set and non-empty, otherwise the default
location under the installation directory; a set-but-empty environment
value does not override the default; and the resolved configuration
never changes over any sequence of served events. -/
theorem claim_C8 {Feat : Type} (baseDir : String) (env : Env)
    (steps : List (ArtifactFS Feat × Request)) (a : AppState Feat) :
    (env.model_path_var = Option.none →
      (initConfig baseDir env).model_path =
        osPathJoin baseDir "basic_classifier.pkl") ∧
    (env.model_path_var = some "" →
      (initConfig baseDir env).model_path =
        osPathJoin baseDir "basic_classifier.pkl") ∧
    (∀ sv, sv ≠ "" → env.model_path_var = some sv →
      (initConfig baseDir env).model_path = sv) ∧
    (env.vectorizer_path_var = Option.none →
      (initConfig baseDir env).vectorizer_path =
        osPathJoin baseDir "count_vectorizer.pkl") ∧
    (env.vectorizer_path_var = some "" →
      (initConfig baseDir env).vectorizer_path =
        osPathJoin baseDir "count_vectorizer.pkl") ∧
    (∀ sv, sv ≠ "" → env.vectorizer_path_var = some sv →
      (initConfig baseDir env).vectorizer_path = sv) ∧
    (runServer (⟨initConfig baseDir env, a⟩ : ProcState Feat) steps).1.cfg =
      initConfig baseDir env := by
  refine ⟨?_, ?_, ?_, ?_, ?_, ?_, runServer_cfg _ _⟩
  · intro h
    simp [initConfig, resolvePath, h]
  · intro h
    simp [initConfig, resolvePath, h]
  · intro sv hne h
    simp [initConfig, resolvePath, h, hne]
  · intro h
    simp [initConfig, resolvePath, h]
  · intro h
    simp [initConfig, resolvePath, h]
  · intro sv hne h
    simp [initConfig, resolvePath, h, hne]

/-- Witness for C8: a non-empty `MODEL_PATH` override wins, an empty
`VECTORIZER_PATH` override is ignored, and the configuration survives a
served request unchanged. -/
theorem claim_C8_witness :
    (initConfig "/base" ⟨some "/x.pkl", some ""⟩).model_path = "/x.pkl" ∧
    (initConfig "/base" ⟨some "/x.pkl", some ""⟩).vectorizer_path =
      osPathJoin "/base" "count_vectorizer.pkl" ∧
    (runServer (⟨initConfig "/base" ⟨some "/x.pkl", some ""⟩,
        startState Nat⟩ : ProcState Nat)
      [(goodFS, .eagerLoad), (goodFS, .getHealth)]).1.cfg =
      initConfig "/base" ⟨some "/x.pkl", some ""⟩ :=
  ⟨(claim_C8 "/base" ⟨some "/x.pkl", some ""⟩
      ([] : List (ArtifactFS Nat × Request)) (startState Nat)).2.2.1
      "/x.pkl" (by decide) rfl,
   (claim_C8 "/base" ⟨some "/x.pkl", some ""⟩
      ([] : List (ArtifactFS Nat × Request)) (startState Nat)).2.2.2.2.1 rfl,
   (claim_C8 "/base" ⟨some "/x.pkl", some ""⟩
      [(goodFS, .eagerLoad), (goodFS, .getHealth)]
      (startState Nat)).2.2.2.2.2.2⟩

/-- C9: in `POST /predict` the extracted message value is coerced with
`str()` and stripped before the emptiness check: a body that is not
valid JSON is treated as an empty body and yields 400 with an `error`
key rather than a server error; a whitespace-only message yields 400;
and a non-string JSON value whose string form is non-empty is accepted
and passed (coerced and stripped) to inference rather than rejected. -/
theorem claim_C9 {Feat : Type} (fs : ArtifactFS Feat) (s s1 : AppState Feat)
    (evs : List LoadEvent) (w : String) (v : PyValue) (l : String)
    (hw : w.data.all isPySpace = true)
    (hv : pyStrip (pyStr v) ≠ "")
    (hok : predict_text fs s (pyStrip (pyStr v)) = ⟨s1, evs, .ok l⟩) :
    (predict_json fs s Option.none).resp.status = 400 ∧
    ((predict_json fs s Option.none).resp.body.lookup "error").isSome
      = true ∧
    (predict_json fs s (some [("message", .str w)])).resp.status = 400 ∧
    predict_json fs s (some [("message", v)]) =
      ⟨s1, evs, ⟨200, [("label", .str l)]⟩⟩ := by
  refine ⟨rfl, rfl, ?_, ?_⟩
  · have hred : predict_json fs s (some [("message", .str w)]) =
        (if pyStrip w = "" then
          ⟨s, [], ⟨400, [("error", .str missingFieldMsg)]⟩⟩
        else
          let r := predict_text fs s (pyStrip w)
          ⟨r.state, r.events, jsonRespOf r.result⟩) := rfl
    rw [hred, if_pos (pyStrip_all_space w hw)]
  · have hred : predict_json fs s (some [("message", v)]) =
        (if pyStrip (pyStr v) = "" then
          ⟨s, [], ⟨400, [("error", .str missingFieldMsg)]⟩⟩
        else
          let r := predict_text fs s (pyStrip (pyStr v))
          ⟨r.state, r.events, jsonRespOf r.result⟩) := rfl
    rw [hred, if_neg hv]
    simp only [hok]
    rfl

/-- Witness for C9: the whitespace-only message `" "` is rejected with
400, and the integer message `42` is coerced to `"42"`, accepted, and
classified. -/
theorem claim_C9_witness :
    (predict_json goodFS (startState Nat)
        (some [("message", PyValue.str " ")])).resp.status = 400 ∧
    predict_json goodFS (startState Nat) (some [("message", PyValue.int 42)]) =
      ⟨loadedState, [.modelRead, .vecRead],
        ⟨200, [("label", PyValue.str "FAKE")]⟩⟩ :=
  ⟨(claim_C9 goodFS (startState Nat) loadedState [.modelRead, .vecRead]
      " " (PyValue.int 42) "FAKE" (by decide) (by decide) rfl).2.2.1,
   (claim_C9 goodFS (startState Nat) loadedState [.modelRead, .vecRead]
      " " (PyValue.int 42) "FAKE" (by decide) (by decide) rfl).2.2.2⟩

/-- C10: whenever `_predict_text` returns successfully, both artifact
slots are non-null; hence a 200 from `/predict-form` is rendered with
`model_loaded=True` and that flag is accurate (the state really has both
slots), and every later `GET /` — after any sequence of further served
events — reports `model_loaded: true`. -/
theorem claim_C10 {Feat : Type} (fs : ArtifactFS Feat)
    (s s1 : AppState Feat) (evs : List LoadEvent) (m l : String)
    (h : predict_text fs s m = ⟨s1, evs, .ok l⟩) :
    bothSome s1 = true ∧
    (∀ fm, (predict_form fs s fm).resp.status = 200 →
      (predict_form fs s fm).resp.model_loaded = true ∧
      bothSome (predict_form fs s fm).state = true) ∧
    (∀ (cfg : Config) (steps : List (ArtifactFS Feat × Request)),
      (health (runServer (⟨cfg, s1⟩ : ProcState Feat) steps).1.cfg
          ((runServer (⟨cfg, s1⟩ : ProcState Feat) steps).1.app)).body.lookup
        "model_loaded" = some (.bool true)) := by
  obtain ⟨hl, _⟩ := predict_text_ok_inv h
  have hb : bothSome s1 = true := load_success_bothSome hl
  refine ⟨hb, ?_, ?_⟩
  · intro fm
    unfold predict_form
    by_cases he : pyStrip (fm.getD "") = ""
    · rw [if_pos he]
      intro hst
      simp at hst
    · rw [if_neg he]
      simp only
      rcases hr : predict_text fs s (pyStrip (fm.getD "")) with ⟨st, ev, res⟩
      rcases res with e | lab
      · rcases e with _ | d | d <;>
          · intro hst
            simp [formRespOf] at hst
      · intro hst
        have hbst : bothSome st = true :=
          load_success_bothSome (predict_text_ok_inv hr).1
        exact ⟨rfl, hbst⟩
  · intro cfg steps
    have hball : bothSome
        ((runServer (⟨cfg, s1⟩ : ProcState Feat) steps).1).app = true :=
      runServer_bothSome ⟨cfg, s1⟩ steps hb
    have hlook : ∀ (c : Config) (a : AppState Feat),
        (health c a).body.lookup "model_loaded" =
          some (.bool (bothSome a)) := fun c a => rfl
    rw [hlook, hball]

/-- Witness for C10: after a successful inference from the start state,
the slots are populated and a later `GET /` (after an extra request) still
reports `model_loaded: true`. -/
theorem claim_C10_witness :
    bothSome loadedState = true ∧
    (health (runServer (⟨⟨"/m.pkl", "/v.pkl"⟩, loadedState⟩ : ProcState Nat)
          [(missingVecFS, .getHealth)]).1.cfg
        ((runServer (⟨⟨"/m.pkl", "/v.pkl"⟩, loadedState⟩ : ProcState Nat)
          [(missingVecFS, .getHealth)]).1.app)).body.lookup "model_loaded" =
      some (.bool true) :=
  ⟨(claim_C10 goodFS (startState Nat) loadedState [.modelRead, .vecRead]
      "news" "FAKE" rfl).1,
   (claim_C10 goodFS (startState Nat) loadedState [.modelRead, .vecRead]
      "news" "FAKE" rfl).2.2 ⟨"/m.pkl", "/v.pkl"⟩
     [(missingVecFS, .getHealth)]⟩

end FakeNewsApp
